import Mathlib

/-!
Shallow embedding of the AGI jail lifecycle engine (`jail.hpp`, class
`JailManager` / `JailManagerPool`, together with the pieces of `utils.hpp`
it uses).  Pure functions of the C++ source become Lean functions; the
jail's mutable fields become an explicit `JailState` threaded through the
lifecycle operations; OS effects (filesystem checks, mount/umount, fork,
waitpid, deletion) are supplied by an `Env` record of oracles, one result
per call site; C++ exceptions become `Except` values, and each lifecycle
method's try/catch boundary turns an exception into a `false` result plus
an `ERROR` status, exactly as in the source.
-/

namespace AGI

/-- Jail running status, from `enum class JailStatus` in jail.hpp. -/
inductive JailStatus
  | STOPPED
  | STARTING
  | RUNNING
  | STOPPING
  | ERROR
  deriving DecidableEq, Repr

/-- Mount record, from `struct MountInfo` in jail.hpp. -/
structure MountInfo where
  source : String
  target : String
  type : String
  options : String
  deriving DecidableEq, Repr

/-- The mutable per-jail fields of `JailManager`: `status_`, `sshd_pid_`
(an int, `-1` meaning no recorded process) and `active_mounts_`.
(`start_time_` is omitted: no claim mentions it.) -/
structure JailState where
  status : JailStatus
  sshd_pid : Int
  active_mounts : List MountInfo
  deriving DecidableEq, Repr

/-- The state a freshly constructed `JailManager` starts in:
`status_{JailStatus::STOPPED}`, `sshd_pid_ = -1`, no active mounts. -/
def initialState : JailState :=
  { status := JailStatus.STOPPED, sshd_pid := -1, active_mounts := [] }

/-- Outcome of one `umount(2)` call as `unmountAll` reads it off `errno`:
returned 0, failed with `EBUSY`, or failed with any other error. -/
inductive UmountResult
  | ok
  | busy
  | otherErr
  deriving DecidableEq, Repr

/-- Classification of the one-shot child by `waitpid`/`WIFEXITED` in
`JailManager::execute`. -/
inductive ExecOutcome
  | exited (code : Nat)
  | signaled
  deriving DecidableEq, Repr

/-- Oracles for the OS calls the jail engine makes, one result per call
site.  `Except.error` models the C++ call throwing (`std::filesystem`
operations use their throwing overloads in the source; `FileUtils::read`
throws `std::runtime_error`); `FileUtils::write` returns a `Bool` and
never throws, matching utils.hpp. -/
structure Env where
  fsExists : String → Except String Bool
  readFile : String → Except String String
  writeFile : String → String → Bool
  mkdirTree : String → Except String Unit
  removeTree : String → Except String Unit
  mountCall : String → Bool
  umountCall : String → Nat → UmountResult
  forkSshd : Int
  forkChild : Int
  execResult : ExecOutcome

/-- Path of a jail's root, from the `JailManager` constructor:
`jail_path_ = "/var/lib/agi/jails/" + config.name`. -/
def jailPath (name : String) : String :=
  "/var/lib/agi/jails/" ++ name

/-- The jail root used by the concrete counterexamples and witnesses below
(a jail named `dev`). -/
def jailPathDev : String :=
  jailPath "dev"

/-- `jail_path_ + "/usr/share/agi/init.sh"`, as in `runInitScript` and
`createInitScripts`. -/
def initScriptPath (jp : String) : String :=
  jp ++ "/usr/share/agi/init.sh"

/-- `jail_path_ + "/usr/share/agi/cleanup.sh"`, as in `runCleanupScript`. -/
def cleanupScriptPath (jp : String) : String :=
  jp ++ "/usr/share/agi/cleanup.sh"

/-- `jail_path_ + "/etc/ssh"`, as in `generateSshConfig`. -/
def sshDirPath (jp : String) : String :=
  jp ++ "/etc/ssh"

/-- The four fixed mount records appended by `mountFilesystems`, in source
order: proc, sysfs, devpts, then the bind mount of host `/tmp`. -/
def fixedMounts (jp : String) : List MountInfo :=
  [ ⟨"proc", jp ++ "/proc", "proc", ""⟩,
    ⟨"sysfs", jp ++ "/sys", "sysfs", ""⟩,
    ⟨"devpts", jp ++ "/dev/pts", "devpts", "gid=5,mode=620"⟩,
    ⟨"/tmp", jp ++ "/tmp", "none", "bind"⟩ ]

/-- `JailManager::mountFilesystems` (jail.hpp lines 569-588): issues the
four `mount(2)` calls and after each one calls `addMountInfo`, which
appends the record to `active_mounts_`.  The return value of every
`mount(2)` call is discarded by the source, so the resulting list does not
depend on whether any mount succeeded.  Returns the new `active_mounts_`. -/
def mountFilesystems (jp : String) (mounts : List MountInfo) : List MountInfo :=
  mounts ++ fixedMounts jp

/-- Ghost instrumentation, not a source function: the targets among the
four `mount(2)` calls of `mountFilesystems` whose call actually returned 0
under the oracle `env.mountCall`.  Used to compare the recorded
`active_mounts_` list with the mounts really established (claim C3). -/
def establishedTargets (jp : String) (env : Env) : List String :=
  ((fixedMounts jp).filter (fun m => env.mountCall m.target)).map MountInfo.target

/-- Result of the per-target retry loop in `unmountAll`. -/
structure LoopResult where
  success : Bool
  attempts : Nat
  sleeps : Nat
  deriving DecidableEq, Repr

/-- The per-target loop of `unmountAll` (jail.hpp lines 593-605):
`int retries = 3; while (retries > 0) { umount; break on 0; on EBUSY
sleep 100ms and --retries; on any other errno break; }`.  `res n` is the
outcome of the (n+1)-th `umount(2)` call on this target; the first
argument is the remaining value of `retries`, then the number of calls
already made and the number of 100ms sleeps already performed.  Returns
whether the target was unmounted, the total number of `umount(2)` calls,
and the total number of 100ms sleeps. -/
def unmountLoop (res : Nat → UmountResult) : Nat → Nat → Nat → LoopResult
  | 0, n, k => ⟨false, n, k⟩
  | r + 1, n, k =>
    match res n with
    | UmountResult.ok => ⟨true, n + 1, k⟩
    | UmountResult.busy => unmountLoop res r (n + 1) (k + 1)
    | UmountResult.otherErr => ⟨false, n + 1, k⟩

/-- One teardown record: the target, what the retry loop did on it. -/
structure UnmountAttempt where
  target : String
  result : LoopResult
  deriving DecidableEq, Repr

/-- `JailManager::unmountAll` (jail.hpp lines 590-608): walks
`active_mounts_` in reverse (`rbegin()..rend()`), runs the retry loop on
each record's target, and finally `active_mounts_.clear()` — the list is
cleared unconditionally, whatever each loop's outcome was.  Returns the
teardown trace, in the order the targets were attempted; the post-state
list is `[]`. -/
def unmountAll (env : Env) (mounts : List MountInfo) : List UnmountAttempt :=
  mounts.reverse.map (fun m => ⟨m.target, unmountLoop (env.umountCall m.target) 3 0 0⟩)

/-- Result of a state-changing lifecycle operation: the boolean the method
returns, the jail state after it, the number of `fork(2)` calls it made,
and the teardown trace of any `unmountAll` it ran. -/
structure OpResult where
  ok : Bool
  state : JailState
  forks : Nat
  umounts : List UnmountAttempt
  deriving Repr

/-- `JailManager::startSshd` (jail.hpp lines 620-646), parent side: calls
`fork()`; a positive pid is recorded into `sshd_pid_`; otherwise
`JailError("Cannot start SSH")` is thrown.  (The child branch execs sshd
and is not part of the manager's state.) -/
def startSshd (env : Env) (s : JailState) : Except String JailState :=
  if 0 < env.forkSshd then Except.ok { s with sshd_pid := env.forkSshd }
  else Except.error "Cannot start SSH"

/-- `JailManager::runInitScript` (jail.hpp lines 660-673): checks the init
script with the throwing overload of `std::filesystem::exists`; when
present, forks and waits (the fork result is not checked, a failed fork is
silently ignored).  Returns the number of forks, or the exception. -/
def runInitScript (jp : String) (env : Env) : Except String Nat :=
  match env.fsExists (initScriptPath jp) with
  | Except.error e => Except.error e
  | Except.ok true => Except.ok 1
  | Except.ok false => Except.ok 0

/-- `JailManager::runCleanupScript` (jail.hpp lines 675-688): same shape as
`runInitScript`, on `cleanup.sh`. -/
def runCleanupScript (jp : String) (env : Env) : Except String Nat :=
  match env.fsExists (cleanupScriptPath jp) with
  | Except.error e => Except.error e
  | Except.ok true => Except.ok 1
  | Except.ok false => Except.ok 0

/-- `JailManager::stopSshd` (jail.hpp lines 648-658): when `sshd_pid_ > 0`,
sends SIGTERM, waits (both results unchecked), and resets `sshd_pid_` to
`-1`; otherwise does nothing. -/
def stopSshd (s : JailState) : JailState :=
  if 0 < s.sshd_pid then { s with sshd_pid := -1 } else s

/-- `JailManager::start` (jail.hpp lines 198-239).  Early-returns `true`
untouched when already RUNNING.  Otherwise sets STARTING, checks the jail
root (`std::filesystem::exists`; missing root raises
`JailError("Jail directory does not exist...")`), applies resource limits
(`setrlimit` results unchecked — no observable state here), mounts the
filesystems, starts sshd, runs the init script, and on full success sets
RUNNING.  Any exception is caught at the method boundary: status becomes
ERROR and `false` is returned; nothing done so far (mount records, the
recorded sshd pid) is rolled back. -/
def start (jp : String) (env : Env) (s : JailState) : OpResult :=
  if s.status = JailStatus.RUNNING then
    ⟨true, s, 0, []⟩
  else
    let s1 : JailState := { s with status := JailStatus.STARTING }
    match env.fsExists jp with
    | Except.error _ => ⟨false, { s1 with status := JailStatus.ERROR }, 0, []⟩
    | Except.ok false => ⟨false, { s1 with status := JailStatus.ERROR }, 0, []⟩
    | Except.ok true =>
      let s2 : JailState := { s1 with active_mounts := mountFilesystems jp s1.active_mounts }
      match startSshd env s2 with
      | Except.error _ => ⟨false, { s2 with status := JailStatus.ERROR }, 1, []⟩
      | Except.ok s3 =>
        match runInitScript jp env with
        | Except.error _ => ⟨false, { s3 with status := JailStatus.ERROR }, 1, []⟩
        | Except.ok k => ⟨true, { s3 with status := JailStatus.RUNNING }, 1 + k, []⟩

/-- `JailManager::stop` (jail.hpp lines 245-275).  Early-returns `true`
untouched when already STOPPED.  Otherwise sets STOPPING, stops sshd, runs
the cleanup script (whose existence check can throw — caught at the
boundary, yielding ERROR and `false`), unmounts everything, and sets
STOPPED. -/
def stop (jp : String) (env : Env) (s : JailState) : OpResult :=
  if s.status = JailStatus.STOPPED then
    ⟨true, s, 0, []⟩
  else
    let s1 : JailState := { s with status := JailStatus.STOPPING }
    let s2 := stopSshd s1
    match runCleanupScript jp env with
    | Except.error _ => ⟨false, { s2 with status := JailStatus.ERROR }, 0, []⟩
    | Except.ok k =>
      let tr := unmountAll env s2.active_mounts
      ⟨true, { s2 with status := JailStatus.STOPPED, active_mounts := [] }, k, tr⟩

/-- `JailManager::destroy` (jail.hpp lines 168-192), modelling the body
under the assumption that the nested `stop()` call executes (in the real
program it re-locks the non-recursive `mutex_` the method already holds
and self-deadlocks — claim C1; the mutex is modelled separately below).
The body calls `stop()` and DISCARDS its boolean result (line 173 is the
bare statement `stop();`), calls `unmountAll()` again defensively, and
then removes the jail subtree when it exists
(`std::filesystem::remove_all`).  Only an exception from the existence
check or the deletion reaches the catch and makes `destroy` return
`false`. -/
def destroy (jp : String) (env : Env) (s : JailState) : OpResult :=
  let r := stop jp env s
  let tr2 := unmountAll env r.state.active_mounts
  let s2 : JailState := { r.state with active_mounts := [] }
  match env.fsExists jp with
  | Except.error _ => ⟨false, s2, r.forks, r.umounts ++ tr2⟩
  | Except.ok true =>
    match env.removeTree jp with
    | Except.error _ => ⟨false, s2, r.forks, r.umounts ++ tr2⟩
    | Except.ok _ => ⟨true, s2, r.forks, r.umounts ++ tr2⟩
  | Except.ok false => ⟨true, s2, r.forks, r.umounts ++ tr2⟩

/-- `JailManager::execute` (jail.hpp lines 282-314).  This method has no
try/catch: both `JailError` throws in it (`"Jail is not running, cannot
execute command"` before the fork, `"Cannot create child process"` on fork
failure) propagate out of the method to the caller; its only caller,
`cmdExec` in main.cpp, does not catch them either.  `Except.error` is the
thrown exception, `Except.ok` the returned string.  The second component
counts the `fork(2)` calls made. -/
def execute (env : Env) (s : JailState) : Except String String × Nat :=
  if s.status ≠ JailStatus.RUNNING then
    (Except.error "Jail is not running, cannot execute command", 0)
  else if 0 < env.forkChild then
    match env.execResult with
    | ExecOutcome.exited 0 => (Except.ok "Command executed successfully", 1)
    | ExecOutcome.exited c =>
        (Except.ok ("Command execution failed (exit code: " ++ toString c ++ ")"), 1)
    | ExecOutcome.signaled => (Except.ok "Command was interrupted by signal", 1)
  else
    (Except.error "Cannot create child process", 1)

/-- The `pid` and status exposure of `JailManager::getRuntimeInfo`
(jail.hpp lines 319-335): the snapshot's pid stays `-1` unless
`sshd_pid_ > 0`, in which case it is copied out. -/
structure JailRuntimeInfo where
  status : JailStatus
  pid : Int
  mounts : List MountInfo
  deriving DecidableEq, Repr

/-- `JailManager::getRuntimeInfo` restricted to the fields the claims
mention (name, port, address and start time are copied verbatim from the
config / clock and are omitted). -/
def getRuntimeInfo (s : JailState) : JailRuntimeInfo :=
  { status := s.status,
    pid := if 0 < s.sshd_pid then s.sshd_pid else -1,
    mounts := s.active_mounts }

/-- The states a `JailManager` can be in between lifecycle calls: the
initial state, and the result of any `start`/`stop`/`destroy` call (each
call sees its own OS oracle).  `create`, `execute` and the read accessors
do not touch `status_`/`sshd_pid_`/`active_mounts_` and so add no states.
`destroy` is included with its body semantics (see its doc comment). -/
inductive Reachable (jp : String) : JailState → Prop
  | init : Reachable jp initialState
  | step_start (env : Env) {s : JailState} :
      Reachable jp s → Reachable jp (start jp env s).state
  | step_stop (env : Env) {s : JailState} :
      Reachable jp s → Reachable jp (stop jp env s).state
  | step_destroy (env : Env) {s : JailState} :
      Reachable jp s → Reachable jp (destroy jp env s).state

/-- Character loop of `PathUtils::normalize` (utils.hpp lines 38-60):
collapse runs of `/` into one; the boolean is `lastWasSlash`. -/
def normChars : List Char → Bool → List Char
  | [], _ => []
  | c :: cs, lastSlash =>
    if c = '/' then
      if lastSlash then normChars cs true else '/' :: normChars cs true
    else c :: normChars cs false

/-- `PathUtils::normalize`: collapse slashes, then drop a trailing slash
unless the result is just the root. -/
def PathUtils.normalize (p : String) : String :=
  let r := String.mk (normChars p.toList false)
  if r.length > 1 ∧ r.back = '/' then r.dropRight 1 else r

/-- Everything before the last `/` of a character list: `none` when the
list has no slash (the `rfind == npos` case). -/
def takeBeforeLastSlash : List Char → Option (List Char)
  | [] => none
  | c :: cs =>
    match takeBeforeLastSlash cs with
    | some r => some (c :: r)
    | none => if c = '/' then some [] else none

/-- `PathUtils::parent` (utils.hpp lines 67-74): normalize, then the part
before the last slash, or `"."` if there is none. -/
def PathUtils.parent (p : String) : String :=
  match takeBeforeLastSlash (PathUtils.normalize p).toList with
  | none => "."
  | some r => String.mk r

/-- The directory list of `createDirectoryStructure` (jail.hpp lines
380-403), in source order, with `data_path_ = jail_path_ + "/data"` and
`run_path_ = jail_path_ + "/run"` from the constructor. -/
def jailDirs (jp : String) : List String :=
  [ jp, jp ++ "/data", jp ++ "/run",
    jp ++ "/bin", jp ++ "/sbin", jp ++ "/usr", jp ++ "/usr/bin",
    jp ++ "/usr/sbin", jp ++ "/lib", jp ++ "/lib64", jp ++ "/etc",
    jp ++ "/home", jp ++ "/root", jp ++ "/tmp", jp ++ "/var",
    jp ++ "/var/log", jp ++ "/var/run", jp ++ "/proc", jp ++ "/sys",
    jp ++ "/dev", jp ++ "/dev/pts", jp ++ "/usr/share/agi" ]

/-- One iteration of `createDirectoryStructure`'s loop: `if (!exists(dir))
create_directories(dir)`, both throwing overloads. -/
def createDirEntry (env : Env) (d : String) : Except String Unit :=
  match env.fsExists d with
  | Except.error e => Except.error e
  | Except.ok true => Except.ok ()
  | Except.ok false => env.mkdirTree d

/-- The loop of `createDirectoryStructure` over a directory list;
exceptions abort the whole loop (and, one frame up, `create()`). -/
def mkDirs (env : Env) : List String → Except String Unit
  | [] => Except.ok ()
  | d :: rest =>
    match createDirEntry env d with
    | Except.error e => Except.error e
    | Except.ok _ => mkDirs env rest

/-- `JailManager::createDirectoryStructure` (jail.hpp lines 379-411). -/
def createDirectoryStructure (jp : String) (env : Env) : Except String Unit :=
  mkDirs env (jailDirs jp)

/-- The `essential_bins` list of `copyBaseSystem` (jail.hpp lines 415-424). -/
def essentialBins : List String :=
  [ "/bin/bash", "/bin/ls", "/bin/cat", "/bin/mkdir", "/bin/rm",
    "/bin/echo", "/bin/sleep", "/usr/bin/whoami" ]

/-- The `libs` list of `copyEssentialLibraries` (jail.hpp lines 454-460). -/
def essentialLibs : List String :=
  [ "/lib/x86_64-linux-gnu/libc.so.6",
    "/lib/x86_64-linux-gnu/libdl.so.2",
    "/lib/x86_64-linux-gnu/libtinfo.so.6",
    "/lib/x86_64-linux-gnu/libpthread.so.0",
    "/lib64/ld-linux-x86-64.so.2" ]

/-- `JailManager::copyBinary` (jail.hpp lines 434-450).  The parent
directory is ensured OUTSIDE the try block (an exception there aborts
`create()`); inside the try, `FileUtils::read` may throw — the catch turns
it into a `"Cannot copy binary: ..."` WARN log and the loop continues —
and `FileUtils::write`'s boolean result plus `chmod` are discarded.
Returns the warning logged, if any. -/
def copyBinary (jp : String) (env : Env) (path : String) : Except String (Option String) :=
  let dest := jp ++ path
  let par := PathUtils.parent dest
  match env.fsExists par with
  | Except.error e => Except.error e
  | Except.ok pexists =>
    match (if pexists then Except.ok () else env.mkdirTree par) with
    | Except.error e => Except.error e
    | Except.ok _ =>
      match env.readFile path with
      | Except.error e => Except.ok (some ("Cannot copy binary: " ++ path ++ " - " ++ e))
      | Except.ok content =>
        let _ := env.writeFile dest content
        Except.ok none

/-- The loop over `essential_bins` in `copyBaseSystem`, collecting the
warnings in order. -/
def copyBinaries (jp : String) (env : Env) : List String → Except String (List String)
  | [] => Except.ok []
  | b :: rest =>
    match copyBinary jp env b with
    | Except.error e => Except.error e
    | Except.ok w =>
      match copyBinaries jp env rest with
      | Except.error e => Except.error e
      | Except.ok ws => Except.ok (w.toList ++ ws)

/-- One iteration of `copyEssentialLibraries` (jail.hpp lines 462-479): a
library that does not exist is skipped with no message at all; when it
exists, the parent directory is ensured (outside any try — exceptions
abort `create()`) and the read/write sits in a `catch (...)` that swallows
every failure silently. -/
def copyLibrary (jp : String) (env : Env) (lib : String) : Except String Unit :=
  match env.fsExists lib with
  | Except.error e => Except.error e
  | Except.ok false => Except.ok ()
  | Except.ok true =>
    let dest := jp ++ lib
    let par := PathUtils.parent dest
    match env.fsExists par with
    | Except.error e => Except.error e
    | Except.ok pexists =>
      match (if pexists then Except.ok () else env.mkdirTree par) with
      | Except.error e => Except.error e
      | Except.ok _ => Except.ok ()

/-- `JailManager::copyEssentialLibraries`, the loop over `libs`. -/
def copyEssentialLibraries (jp : String) (env : Env) : List String → Except String Unit
  | [] => Except.ok ()
  | l :: rest =>
    match copyLibrary jp env l with
    | Except.error e => Except.error e
    | Except.ok _ => copyEssentialLibraries jp env rest

/-- `JailManager::copyBaseSystem` (jail.hpp lines 413-432): the binaries,
then the libraries.  Returns the WARN messages logged. -/
def copyBaseSystem (jp : String) (env : Env) : Except String (List String) :=
  match copyBinaries jp env essentialBins with
  | Except.error e => Except.error e
  | Except.ok ws =>
    match copyEssentialLibraries jp env essentialLibs with
    | Except.error e => Except.error e
    | Except.ok _ => Except.ok ws

/-- The five device-node paths of `createDeviceNodes` (jail.hpp 482-489). -/
def deviceNodePaths (jp : String) : List String :=
  [ jp ++ "/dev/null", jp ++ "/dev/zero", jp ++ "/dev/random",
    jp ++ "/dev/urandom", jp ++ "/dev/tty" ]

/-- `JailManager::createDeviceNodes`: for each node, an existence check
(throwing overload) and then `mknod` with its result discarded. -/
def createDeviceNodes (jp : String) (env : Env) : Except String Unit :=
  (deviceNodePaths jp).foldr
    (fun p acc =>
      match env.fsExists p with
      | Except.error e => Except.error e
      | Except.ok _ => acc)
    (Except.ok ())

/-- `JailManager::generateSshConfig` (jail.hpp lines 504-529): ensure
`etc/ssh` (throwing calls), then `FileUtils::write` the rendered sshd
config, whose boolean result is discarded.  The rendered text is
abstracted to a placeholder: no claim depends on its content. -/
def generateSshConfig (jp : String) (env : Env) : Except String Unit :=
  match env.fsExists (sshDirPath jp) with
  | Except.error e => Except.error e
  | Except.ok dexists =>
    match (if dexists then Except.ok () else env.mkdirTree (sshDirPath jp)) with
    | Except.error e => Except.error e
    | Except.ok _ =>
      let _ := env.writeFile (sshDirPath jp ++ "/sshd_config") "sshd_config"
      Except.ok ()

/-- `JailManager::createInitScripts` (jail.hpp lines 531-543): a
`FileUtils::write` of the init script plus a `chmod`, both with their
results discarded — this step cannot fail. -/
def createInitScripts (jp : String) (env : Env) : Unit :=
  let _ := env.writeFile (initScriptPath jp) "init_script"
  ()

/-- What `create()` returns and the WARN messages its asset copies logged. -/
structure CreateResult where
  ok : Bool
  warnings : List String
  deriving DecidableEq, Repr

/-- `JailManager::create` (jail.hpp lines 134-162): directory skeleton,
base system copy, device nodes, ssh config, init scripts, all inside one
try; any exception is logged and turns into `false`.  `status_`,
`sshd_pid_` and `active_mounts_` are never touched by `create`. -/
def create (jp : String) (env : Env) : CreateResult :=
  match createDirectoryStructure jp env with
  | Except.error _ => ⟨false, []⟩
  | Except.ok _ =>
    match copyBaseSystem jp env with
    | Except.error _ => ⟨false, []⟩
    | Except.ok ws =>
      match createDeviceNodes jp env with
      | Except.error _ => ⟨false, ws⟩
      | Except.ok _ =>
        match generateSshConfig jp env with
        | Except.error _ => ⟨false, ws⟩
        | Except.ok _ =>
          let _ := createInitScripts jp env
          ⟨true, ws⟩

/-- Events on the per-jail `std::mutex mutex_`. -/
inductive LockEvent
  | acquire
  | release
  deriving DecidableEq, Repr

/-- Single-thread semantics of a non-recursive `std::mutex`: the boolean
is "this thread holds the lock"; acquiring a mutex the thread already
holds never succeeds (self-deadlock — formally undefined behavior for
`std::mutex`), modelled as `none` (stuck); so is releasing a lock the
thread does not hold. -/
def runLock : List LockEvent → Bool → Option Bool
  | [], held => some held
  | LockEvent.acquire :: rest, held =>
      if held then none else runLock rest true
  | LockEvent.release :: rest, held =>
      if held then runLock rest false else none

/-- The `mutex_` events of `JailManager::stop` (jail.hpp line 246):
`std::lock_guard<std::mutex> lock(mutex_);` is the first statement of the
method, before the status check, and is released at scope exit — the same
two events whatever the jail state. -/
def stopLockTrace (_s : JailState) : List LockEvent :=
  [LockEvent.acquire, LockEvent.release]

/-- The `mutex_` events of `JailManager::destroy` (jail.hpp line 169):
its own `lock_guard` on `mutex_` at entry, then the nested `stop()` call
(line 173) with all of stop's events, then its own release at scope exit.
Both guards are unconditional, so the first two events are
acquire-then-acquire for every jail state. -/
def destroyLockTrace (s : JailState) : List LockEvent :=
  [LockEvent.acquire] ++ stopLockTrace s ++ [LockEvent.release]

/-- A benign oracle: every filesystem object exists, every OS call
succeeds, `fork` returns pid 5 (sshd) / 7 (one-shot child), the one-shot
child exits 0. -/
def envOkBase : Env :=
  { fsExists := fun _ => Except.ok true,
    readFile := fun _ => Except.ok "binary-content",
    writeFile := fun _ _ => true,
    mkdirTree := fun _ => Except.ok (),
    removeTree := fun _ => Except.ok (),
    mountCall := fun _ => true,
    umountCall := fun _ _ => UmountResult.ok,
    forkSshd := 5,
    forkChild := 7,
    execResult := ExecOutcome.exited 0 }

/-- Oracle for a jail whose root is missing on disk (every existence check
says no, everything else succeeds). -/
def envNoRoot : Env :=
  { envOkBase with fsExists := fun _ => Except.ok false }

/-- Oracle under which the four `mount(2)` calls all fail (return -1)
while everything else succeeds. -/
def envMountFail : Env :=
  { envOkBase with mountCall := fun _ => false }

/-- Oracle under which the existence check of the `dev` jail's init script
throws a `filesystem_error` while everything else succeeds. -/
def envInitThrow : Env :=
  { envOkBase with
    fsExists := fun p =>
      if p = initScriptPath jailPathDev then Except.error "filesystem error"
      else Except.ok true }

/-- Oracle under which the existence check of the `dev` jail's cleanup
script throws (so `stop()` fails) while everything else succeeds. -/
def envCleanupThrow : Env :=
  { envOkBase with
    fsExists := fun p =>
      if p = cleanupScriptPath jailPathDev then Except.error "filesystem error"
      else Except.ok true }

/-- Oracle under which reading `/bin/bash` fails (the binary is missing)
while everything else succeeds. -/
def envNoBash : Env :=
  { envOkBase with
    readFile := fun p =>
      if p = "/bin/bash" then Except.error "Cannot open file: /bin/bash"
      else Except.ok "binary-content" }

/-- Oracle under which every `umount(2)` call reports EBUSY twice and then
succeeds on the third call. -/
def envBusyTwice : Env :=
  { envOkBase with
    umountCall := fun _ n => if n < 2 then UmountResult.busy else UmountResult.ok }

/-- A running `dev` jail as produced by a fully successful `start`:
RUNNING, sshd pid 5, the four fixed mounts recorded. -/
def runningStateDev : JailState :=
  { status := JailStatus.RUNNING, sshd_pid := 5,
    active_mounts := fixedMounts jailPathDev }

/-- Unfolding lemma for `unmountLoop` with remaining retries `r + 1`. -/
theorem unmountLoop_succ (res : Nat → UmountResult) (r n k : Nat) :
    unmountLoop res (r + 1) n k =
      match res n with
      | UmountResult.ok => ⟨true, n + 1, k⟩
      | UmountResult.busy => unmountLoop res r (n + 1) (k + 1)
      | UmountResult.otherErr => ⟨false, n + 1, k⟩ := rfl

/-- The retry loop never makes more than `n + r` calls starting from `n`
calls already made and `r` retries remaining. -/
theorem unmountLoop_attempts_le (res : Nat → UmountResult) :
    ∀ r n k, (unmountLoop res r n k).attempts ≤ n + r := by
  intro r
  induction r with
  | zero => intro n k; simp [unmountLoop]
  | succ r ih =>
    intro n k
    rw [unmountLoop_succ]
    cases res n with
    | ok => simp
    | busy => have := ih (n + 1) (k + 1); simp at this ⊢; omega
    | otherErr => simp

/-- A target that reports EBUSY on the first two `umount(2)` calls and
succeeds on the third is unmounted: 3 calls, 2 sleeps of 100ms, success. -/
theorem unmountLoop_busy_busy_ok (res : Nat → UmountResult)
    (h0 : res 0 = UmountResult.busy) (h1 : res 1 = UmountResult.busy)
    (h2 : res 2 = UmountResult.ok) :
    unmountLoop res 3 0 0 = ⟨true, 3, 2⟩ := by
  rw [show (3 : Nat) = 2 + 1 from rfl, unmountLoop_succ, h0,
    show (2 : Nat) = 1 + 1 from rfl, unmountLoop_succ, h1,
    show (1 : Nat) = 0 + 1 from rfl, unmountLoop_succ, h2]

/-- A target whose first `umount(2)` call fails with an errno other than
EBUSY is abandoned at once: exactly 1 call, no sleep, failure. -/
theorem unmountLoop_other_aborts (res : Nat → UmountResult)
    (h0 : res 0 = UmountResult.otherErr) :
    unmountLoop res 3 0 0 = ⟨false, 1, 0⟩ := by
  rw [show (3 : Nat) = 2 + 1 from rfl, unmountLoop_succ, h0]

/-- `unmountAll` produces one teardown record per mount record, whatever
the individual outcomes were: no failure stops the walk. -/
theorem unmountAll_length (env : Env) (ms : List MountInfo) :
    (unmountAll env ms).length = ms.length := by
  simp [unmountAll]

/-- Claim C1: `destroy()` takes `std::lock_guard` on the non-recursive
per-jail `mutex_` as its first statement and then calls `stop()`, whose
own first statement takes `std::lock_guard` on the same `mutex_` on the
same thread; under non-recursive mutex semantics the nested acquisition
can never succeed, so `destroy()` self-deadlocks (formally: undefined
behavior) for every jail state, while `stop()` called on its own runs its
lock protocol fine. -/
theorem c1_destroy_self_deadlock :
    ∀ s : JailState,
      destroyLockTrace s =
        [LockEvent.acquire, LockEvent.acquire, LockEvent.release, LockEvent.release] ∧
      runLock (destroyLockTrace s) false = none ∧
      runLock (stopLockTrace s) false = some false :=
  fun _ => ⟨rfl, rfl, rfl⟩

/-- Claim C5: teardown attempts `umount(2)` in exactly the reverse order
of establishment — in general the attempted targets are the recorded
targets reversed, and for the concrete sequence [proc, sysfs, devpts,
tmp-bind] of a `dev` jail the attempts are observed in the order
[tmp-bind, devpts, sysfs, proc]. -/
theorem c5_unmount_reverse_order (env : Env) (mounts : List MountInfo) :
    (unmountAll env mounts).map UnmountAttempt.target =
      (mounts.map MountInfo.target).reverse ∧
    (unmountAll envOkBase (fixedMounts jailPathDev)).map UnmountAttempt.target =
      [ "/var/lib/agi/jails/dev/tmp", "/var/lib/agi/jails/dev/dev/pts",
        "/var/lib/agi/jails/dev/sys", "/var/lib/agi/jails/dev/proc" ] := by
  constructor
  · simp [unmountAll]
  · rfl

/-- Claim C10: a `start()` on an already-RUNNING jail is a no-op returning
success: the method early-returns `true` behind the lock, performing no
mount and no fork, leaving the whole state — in particular the
active-mounts list and the recorded sshd pid — unchanged. -/
theorem c10_start_idempotent (jp : String) (env : Env) (s : JailState)
    (h : s.status = JailStatus.RUNNING) :
    (start jp env s).ok = true ∧
    (start jp env s).state = s ∧
    (start jp env s).forks = 0 ∧
    (start jp env s).state.active_mounts.length = s.active_mounts.length ∧
    (start jp env s).state.sshd_pid = s.sshd_pid := by
  simp [start, h]

/-- Witness for C10: a second `start()` on the running `dev` jail. -/
theorem c10_witness :
    runningStateDev.status = JailStatus.RUNNING ∧
    ((start jailPathDev envOkBase runningStateDev).ok = true ∧
      (start jailPathDev envOkBase runningStateDev).state = runningStateDev ∧
      (start jailPathDev envOkBase runningStateDev).forks = 0 ∧
      (start jailPathDev envOkBase runningStateDev).state.active_mounts.length =
        runningStateDev.active_mounts.length ∧
      (start jailPathDev envOkBase runningStateDev).state.sshd_pid =
        runningStateDev.sshd_pid) :=
  ⟨rfl, c10_start_idempotent jailPathDev envOkBase runningStateDev rfl⟩

/-- Counterexample to claim C2: on a STOPPED jail whose root does not
exist, `start()` does return failure, but it does not leave the status at
STOPPED — it sets STARTING at line 208 and the catch at line 235 sets
ERROR. -/
theorem c2_counterexample :
    initialState.status = JailStatus.STOPPED ∧
    envNoRoot.fsExists jailPathDev = Except.ok false ∧
    (start jailPathDev envNoRoot initialState).ok = false ∧
    (start jailPathDev envNoRoot initialState).state.status = JailStatus.ERROR ∧
    (start jailPathDev envNoRoot initialState).state.status ≠ JailStatus.STOPPED :=
  ⟨rfl, rfl, rfl, rfl, by decide⟩

/-- Claim C2 as amended: `start()` on a STOPPED jail whose filesystem root
does not exist returns failure and sets the status to ERROR (the missing
root raises `JailError`, caught at the method boundary after the status
was already moved to STARTING). -/
theorem c2_amended (jp : String) (env : Env) (s : JailState)
    (hs : s.status = JailStatus.STOPPED)
    (hfs : env.fsExists jp = Except.ok false) :
    (start jp env s).ok = false ∧
    (start jp env s).state.status = JailStatus.ERROR := by
  simp [start, hs, hfs]

/-- Witness for the amended C2, on the `dev` jail with a missing root. -/
theorem c2_witness :
    initialState.status = JailStatus.STOPPED ∧
    envNoRoot.fsExists jailPathDev = Except.ok false ∧
    ((start jailPathDev envNoRoot initialState).ok = false ∧
      (start jailPathDev envNoRoot initialState).state.status = JailStatus.ERROR) :=
  ⟨rfl, rfl, c2_amended jailPathDev envNoRoot initialState rfl rfl⟩

/-- Counterexample to claim C7: `execute()` on a STOPPED jail does fail
with the "not running" condition before any fork, but the failure is NOT
reported as a result value — `execute` has no try/catch, so the
`JailError` (modelled as `Except.error`) propagates as an exception past
the operation boundary to the caller (and `cmdExec`, its only caller,
does not catch it either). -/
theorem c7_counterexample :
    initialState.status = JailStatus.STOPPED ∧
    (execute envOkBase initialState).1 =
      Except.error "Jail is not running, cannot execute command" ∧
    (execute envOkBase initialState).2 = 0 :=
  ⟨rfl, rfl, rfl⟩

/-- Claim C7 as amended: on every jail whose status is not RUNNING,
`execute(command)` performs no fork and throws
`JailError("Jail is not running, cannot execute command")` to the caller —
an exception escaping the operation, not a returned result value. -/
theorem c7_amended (env : Env) (s : JailState)
    (h : s.status ≠ JailStatus.RUNNING) :
    execute env s =
      (Except.error "Jail is not running, cannot execute command", 0) := by
  simp [execute, h]

/-- Witness for the amended C7: a STOPPED jail. -/
theorem c7_witness :
    initialState.status ≠ JailStatus.RUNNING ∧
    execute envOkBase initialState =
      (Except.error "Jail is not running, cannot execute command", 0) :=
  ⟨by decide, c7_amended envOkBase initialState (by decide)⟩

/-- Claim C4: the unmount retry policy.  On a running jail whose every
mount target reports EBUSY exactly twice and succeeds on the third
`umount(2)` call, `stop()` completes successfully, the active-mounts list
is emptied, and each target's teardown record shows success after 3 calls
with 2 sleeps of 100ms.  In general: a first call failing with an errno
other than EBUSY abandons that one target immediately (exactly 1 call, no
retry, no sleep); a target is never attempted more than 3 times; and
teardown always proceeds through every remaining record regardless of
individual failures (one teardown record per mount record). -/
theorem c4_unmount_retry (jp : String) (env : Env) (s : JailState)
    (hs : s.status = JailStatus.RUNNING)
    (hcl : ∃ b, env.fsExists (cleanupScriptPath jp) = Except.ok b)
    (hbusy : ∀ t, env.umountCall t 0 = UmountResult.busy ∧
      env.umountCall t 1 = UmountResult.busy ∧
      env.umountCall t 2 = UmountResult.ok) :
    (stop jp env s).ok = true ∧
    (stop jp env s).state.active_mounts = [] ∧
    (∀ a ∈ (stop jp env s).umounts,
      a.result = (⟨true, 3, 2⟩ : LoopResult)) ∧
    (∀ res : Nat → UmountResult, res 0 = UmountResult.otherErr →
      unmountLoop res 3 0 0 = ⟨false, 1, 0⟩) ∧
    (∀ res : Nat → UmountResult, (unmountLoop res 3 0 0).attempts ≤ 3) ∧
    (∀ env2 : Env, ∀ ms : List MountInfo,
      (unmountAll env2 ms).length = ms.length) := by
  obtain ⟨b, hb⟩ := hcl
  have hk : ∃ k, runCleanupScript jp env = Except.ok k := by
    cases b
    · exact ⟨0, by simp [runCleanupScript, hb]⟩
    · exact ⟨1, by simp [runCleanupScript, hb]⟩
  obtain ⟨k, hk⟩ := hk
  refine ⟨?_, ?_, ?_, ?_, ?_, fun env2 ms => unmountAll_length env2 ms⟩
  · simp [stop, hs, hk]
  · simp [stop, hs, hk]
  · intro a ha
    have htr : (stop jp env s).umounts =
        unmountAll env (stopSshd { s with status := JailStatus.STOPPING }).active_mounts := by
      simp [stop, hs, hk]
    rw [htr] at ha
    simp only [unmountAll, List.mem_map, List.mem_reverse] at ha
    obtain ⟨m, _, rfl⟩ := ha
    exact unmountLoop_busy_busy_ok _ (hbusy m.target).1 (hbusy m.target).2.1
      (hbusy m.target).2.2
  · intro res h0
    exact unmountLoop_other_aborts res h0
  · intro res
    have := unmountLoop_attempts_le res 3 0 0
    simpa using this

/-- Witness for C4: the running `dev` jail under the busy-twice oracle. -/
theorem c4_witness :
    (stop jailPathDev envBusyTwice runningStateDev).ok = true ∧
    (stop jailPathDev envBusyTwice runningStateDev).state.active_mounts = [] :=
  ⟨(c4_unmount_retry jailPathDev envBusyTwice runningStateDev rfl ⟨true, rfl⟩
      (fun _ => ⟨rfl, rfl, rfl⟩)).1,
    (c4_unmount_retry jailPathDev envBusyTwice runningStateDev rfl ⟨true, rfl⟩
      (fun _ => ⟨rfl, rfl, rfl⟩)).2.1⟩

/-- Counterexample to claim C8: on a running `dev` jail whose cleanup-step
existence check throws, `stop()` fails (returns `false`, status ERROR) —
yet `destroy()` on the very same jail and oracle returns `true`, because
line 173 discards `stop()`'s result: "destroy() returns failure whenever
the stop fails" is false on the code. -/
theorem c8_counterexample :
    (stop jailPathDev envCleanupThrow runningStateDev).ok = false ∧
    (stop jailPathDev envCleanupThrow runningStateDev).state.status =
      JailStatus.ERROR ∧
    (destroy jailPathDev envCleanupThrow runningStateDev).ok = true :=
  ⟨rfl, rfl, rfl⟩

/-- Claim C8 as amended: `destroy()` runs the full `stop()` sequence first
and then unmounts defensively again and deletes the subtree, but it
IGNORES `stop()`'s boolean result — its return value is determined solely
by the existence-check/deletion step (failure exactly when that step
throws); a failed stop alone never makes `destroy()` return failure. -/
theorem c8_amended (jp : String) (env : Env) (s : JailState) :
    (destroy jp env s).ok =
      (match env.fsExists jp with
        | Except.error _ => false
        | Except.ok true =>
          (match env.removeTree jp with
            | Except.error _ => false
            | Except.ok _ => true)
        | Except.ok false => true) ∧
    (destroy jp env s).state.active_mounts = [] ∧
    (destroy jp env s).state.status = (stop jp env s).state.status ∧
    (destroy jp env s).state.sshd_pid = (stop jp env s).state.sshd_pid := by
  cases hfs : env.fsExists jp with
  | error e => simp [destroy, hfs]
  | ok b =>
    cases b
    · simp [destroy, hfs]
    · cases hrm : env.removeTree jp with
      | error e => simp [destroy, hfs, hrm]
      | ok u => simp [destroy, hfs, hrm]

/-- After `stopSshd` the recorded pid is never positive: either it was
positive and was reset to -1, or it already was not. -/
theorem stopSshd_pid_nonpos (s : JailState) : (stopSshd s).sshd_pid ≤ 0 := by
  unfold stopSshd
  split
  · exact (by norm_num : (-1 : Int) ≤ 0)
  · omega

/-- `start` either leaves the state untouched (the already-RUNNING
early return) or ends in ERROR or in RUNNING. -/
theorem start_state_cases (jp : String) (env : Env) (s : JailState) :
    (start jp env s).state = s ∨
    (start jp env s).state.status = JailStatus.ERROR ∨
    (start jp env s).state.status = JailStatus.RUNNING := by
  by_cases hrun : s.status = JailStatus.RUNNING
  · left; simp [start, hrun]
  · cases hfs : env.fsExists jp with
    | error e => right; left; simp [start, hrun, hfs]
    | ok b =>
      cases b
      · right; left; simp [start, hrun, hfs]
      · by_cases hfork : 0 < env.forkSshd
        · cases hinit : env.fsExists (initScriptPath jp) with
          | error e2 =>
            right; left
            simp [start, hrun, hfs, startSshd, hfork, runInitScript, hinit]
          | ok b2 =>
            right; right
            cases b2 <;>
              simp [start, hrun, hfs, startSshd, hfork, runInitScript, hinit]
        · right; left; simp [start, hrun, hfs, startSshd, hfork]

/-- `stop` either leaves the state untouched (the already-STOPPED early
return) or ends with a non-positive pid and either status ERROR (cleanup
check threw, mounts untouched) or status STOPPED with the mount list
cleared. -/
theorem stop_state_cases (jp : String) (env : Env) (s : JailState) :
    (stop jp env s).state = s ∨
    ((stop jp env s).state.sshd_pid ≤ 0 ∧
      ((stop jp env s).state.status = JailStatus.ERROR ∨
        ((stop jp env s).state.status = JailStatus.STOPPED ∧
          (stop jp env s).state.active_mounts = []))) := by
  by_cases hstp : s.status = JailStatus.STOPPED
  · left; simp [stop, hstp]
  · right
    cases hcl : env.fsExists (cleanupScriptPath jp) with
    | error e =>
      constructor
      · simpa [stop, hstp, runCleanupScript, hcl] using
          stopSshd_pid_nonpos { s with status := JailStatus.STOPPING }
      · left; simp [stop, hstp, runCleanupScript, hcl]
    | ok b =>
      cases b
      · constructor
        · simpa [stop, hstp, runCleanupScript, hcl] using
            stopSshd_pid_nonpos { s with status := JailStatus.STOPPING }
        · right; constructor
          · simp [stop, hstp, runCleanupScript, hcl]
          · simp [stop, hstp, runCleanupScript, hcl]
      · constructor
        · simpa [stop, hstp, runCleanupScript, hcl] using
            stopSshd_pid_nonpos { s with status := JailStatus.STOPPING }
        · right; constructor
          · simp [stop, hstp, runCleanupScript, hcl]
          · simp [stop, hstp, runCleanupScript, hcl]

/-- The state after `destroy` is the state after the inner `stop` with the
mount list cleared by the defensive `unmountAll`. -/
theorem destroy_state (jp : String) (env : Env) (s : JailState) :
    (destroy jp env s).state =
      { (stop jp env s).state with active_mounts := [] } := by
  cases hfs : env.fsExists jp with
  | error e => simp [destroy, hfs]
  | ok b =>
    cases b
    · simp [destroy, hfs]
    · cases hrm : env.removeTree jp with
      | error e => simp [destroy, hfs, hrm]
      | ok u => simp [destroy, hfs, hrm]

/-- In every reachable state, a STOPPED jail has an empty mount list (the
direction of the C3 biconditional that does hold). -/
theorem stopped_mounts_empty (jp : String) {s : JailState}
    (hr : Reachable jp s) :
    s.status = JailStatus.STOPPED → s.active_mounts = [] := by
  induction hr with
  | init => intro _; rfl
  | step_start env hr ih =>
    intro hst
    rcases start_state_cases jp env _ with h | h | h
    · rw [h] at hst ⊢; exact ih hst
    · rw [hst] at h; cases h
    · rw [hst] at h; cases h
  | step_stop env hr ih =>
    intro hst
    rcases stop_state_cases jp env _ with h | ⟨_, h | ⟨_, h⟩⟩
    · rw [h] at hst ⊢; exact ih hst
    · rw [hst] at h; cases h
    · exact h
  | step_destroy env hr ih =>
    intro _
    rw [destroy_state]

/-- Counterexample to claim C3: starting the `dev` jail under an oracle
where every one of the four `mount(2)` calls fails reaches a RUNNING state
whose active-mounts list holds all four records even though not one of
those mounts was established — the list records attempts, not successes,
because `mountFilesystems` discards every `mount(2)` return value. -/
theorem c3_counterexample :
    Reachable jailPathDev (start jailPathDev envMountFail initialState).state ∧
    (start jailPathDev envMountFail initialState).state.status =
      JailStatus.RUNNING ∧
    (start jailPathDev envMountFail initialState).state.active_mounts =
      fixedMounts jailPathDev ∧
    establishedTargets jailPathDev envMountFail = [] ∧
    fixedMounts jailPathDev ≠ [] :=
  ⟨Reachable.step_start envMountFail Reachable.init, rfl, rfl, rfl, by decide⟩

/-- Claim C3 as amended: the active-mounts list records every mount
attempt `mountFilesystems` makes, in order, regardless of whether the
`mount(2)` call succeeded (the appended records do not depend on any mount
outcome); `unmountAll` clears the whole list unconditionally, emitting one
teardown record per entry whatever each unmount's outcome; and in every
reachable state a STOPPED jail has an empty list (the converse direction
of the claimed "empty iff STOPPED" fails: a failed start can leave an
ERROR state with an empty list). -/
theorem c3_amended (jp : String) (env : Env) (mounts : List MountInfo)
    (s : JailState) (hr : Reachable jp s)
    (hst : s.status = JailStatus.STOPPED) :
    mountFilesystems jp mounts = mounts ++ fixedMounts jp ∧
    (unmountAll env mounts).length = mounts.length ∧
    s.active_mounts = [] :=
  ⟨rfl, unmountAll_length env mounts, stopped_mounts_empty jp hr hst⟩

/-- Witness for the amended C3: the freshly constructed `dev` jail. -/
theorem c3_witness :
    initialState.status = JailStatus.STOPPED ∧
    (mountFilesystems jailPathDev (fixedMounts jailPathDev) =
        fixedMounts jailPathDev ++ fixedMounts jailPathDev ∧
      (unmountAll envOkBase (fixedMounts jailPathDev)).length =
        (fixedMounts jailPathDev).length ∧
      initialState.active_mounts = []) :=
  ⟨rfl, c3_amended jailPathDev envOkBase (fixedMounts jailPathDev)
    initialState Reachable.init rfl⟩

/-- Counterexample to claim C6: starting the `dev` jail under an oracle
where the init-script existence check throws reaches a reachable state
with status ERROR in which the recorded sshd pid is still positive (the
catch at the `start()` boundary never clears `sshd_pid_`), and
`getRuntimeInfo` on that state reports pid 5 — a non-RUNNING state with a
non-null supervised process id. -/
theorem c6_counterexample :
    Reachable jailPathDev (start jailPathDev envInitThrow initialState).state ∧
    (start jailPathDev envInitThrow initialState).state.status =
      JailStatus.ERROR ∧
    0 < (start jailPathDev envInitThrow initialState).state.sshd_pid ∧
    (getRuntimeInfo (start jailPathDev envInitThrow initialState).state).pid = 5 :=
  ⟨Reachable.step_start envInitThrow Reachable.init, rfl, by decide, rfl⟩

/-- Claim C6 as amended: in every reachable state, the recorded sshd pid
is positive only while the status is RUNNING or ERROR — `stop()` always
clears the pid on its way out of RUNNING, but a `start()` that fails after
forking sshd (its init-script step throwing) leaves an ERROR state with
the pid still recorded. -/
theorem c6_amended (jp : String) (s : JailState) (hr : Reachable jp s)
    (hp : 0 < s.sshd_pid) :
    s.status = JailStatus.RUNNING ∨ s.status = JailStatus.ERROR := by
  induction hr with
  | init => exact absurd hp (by decide)
  | step_start env hr ih =>
    rcases start_state_cases jp env _ with h | h | h
    · rw [h] at hp ⊢; exact ih hp
    · right; exact h
    · left; exact h
  | step_stop env hr ih =>
    rcases stop_state_cases jp env _ with h | ⟨hpid, _⟩
    · rw [h] at hp ⊢; exact ih hp
    · omega
  | @step_destroy env s' hr ih =>
    have hpid_eq : (destroy jp env s').state.sshd_pid =
        (stop jp env s').state.sshd_pid := by rw [destroy_state]
    have hst_eq : (destroy jp env s').state.status =
        (stop jp env s').state.status := by rw [destroy_state]
    rw [hpid_eq] at hp
    rw [hst_eq]
    rcases stop_state_cases jp env _ with h | ⟨hpid, _⟩
    · rw [h] at hp ⊢
      exact ih hp
    · omega

/-- Witness for the amended C6: a fully successful `start()` of the `dev`
jail, a reachable state with pid 5 recorded, whose status is RUNNING. -/
theorem c6_witness :
    0 < (start jailPathDev envOkBase initialState).state.sshd_pid ∧
    ((start jailPathDev envOkBase initialState).state.status =
        JailStatus.RUNNING ∨
      (start jailPathDev envOkBase initialState).state.status =
        JailStatus.ERROR) :=
  ⟨by decide, c6_amended jailPathDev _
    (Reachable.step_start envOkBase Reachable.init) (by decide)⟩

/-- Ghost instrumentation, not a source function: the WARN message
`copyBinary` logs for a binary, `some` exactly when `FileUtils::read` on
it throws. -/
def binaryWarning (env : Env) (b : String) : Option String :=
  match env.readFile b with
  | Except.error e => some ("Cannot copy binary: " ++ b ++ " - " ++ e)
  | Except.ok _ => none

/-- Under an oracle whose existence checks and directory creations all
succeed, one directory entry of the skeleton loop always succeeds. -/
theorem createDirEntry_ok (env : Env)
    (hex : ∀ p, ∃ b, env.fsExists p = Except.ok b)
    (hmk : ∀ p, env.mkdirTree p = Except.ok ()) (d : String) :
    createDirEntry env d = Except.ok () := by
  obtain ⟨b, hb⟩ := hex d
  cases b <;> simp [createDirEntry, hb, hmk d]

/-- ... hence the whole skeleton loop succeeds on any directory list. -/
theorem mkDirs_ok (env : Env)
    (hex : ∀ p, ∃ b, env.fsExists p = Except.ok b)
    (hmk : ∀ p, env.mkdirTree p = Except.ok ()) :
    ∀ l : List String, mkDirs env l = Except.ok () := by
  intro l
  induction l with
  | nil => rfl
  | cons d rest ih => simp [mkDirs, createDirEntry_ok env hex hmk d, ih]

/-- Under the same oracle assumptions, `copyBinary` never aborts: it
returns exactly the warning of a failed read, and no warning otherwise —
a missing binary (read failure) is caught inside the method's try block
and only logged. -/
theorem copyBinary_ok (jp : String) (env : Env)
    (hex : ∀ p, ∃ b, env.fsExists p = Except.ok b)
    (hmk : ∀ p, env.mkdirTree p = Except.ok ()) (b : String) :
    copyBinary jp env b = Except.ok (binaryWarning env b) := by
  obtain ⟨pb, hpb⟩ := hex (PathUtils.parent (jp ++ b))
  cases pb <;> cases hrd : env.readFile b <;>
    simp [copyBinary, hpb, hmk, binaryWarning, hrd]

/-- The binary loop of `copyBaseSystem` collects exactly the warnings of
the binaries whose read failed, in list order, and never aborts. -/
theorem copyBinaries_ok (jp : String) (env : Env)
    (hex : ∀ p, ∃ b, env.fsExists p = Except.ok b)
    (hmk : ∀ p, env.mkdirTree p = Except.ok ()) :
    ∀ l : List String,
      copyBinaries jp env l = Except.ok (l.filterMap (binaryWarning env)) := by
  intro l
  induction l with
  | nil => rfl
  | cons b rest ih =>
    rw [show copyBinaries jp env (b :: rest) =
        (match copyBinary jp env b with
          | Except.error e => Except.error e
          | Except.ok w =>
            (match copyBinaries jp env rest with
              | Except.error e => Except.error e
              | Except.ok ws => Except.ok (w.toList ++ ws))) from rfl,
      copyBinary_ok jp env hex hmk b, ih]
    cases hw : binaryWarning env b <;> simp [List.filterMap_cons, hw]

/-- One library of `copyEssentialLibraries` never aborts under the same
oracle assumptions: absent libraries are skipped silently, and the
read/write of present ones sits in a swallow-everything catch. -/
theorem copyLibrary_ok (jp : String) (env : Env)
    (hex : ∀ p, ∃ b, env.fsExists p = Except.ok b)
    (hmk : ∀ p, env.mkdirTree p = Except.ok ()) (lib : String) :
    copyLibrary jp env lib = Except.ok () := by
  obtain ⟨b, hb⟩ := hex lib
  obtain ⟨pb, hpb⟩ := hex (PathUtils.parent (jp ++ lib))
  cases b <;> cases pb <;> simp [copyLibrary, hb, hpb, hmk]

/-- ... hence the library loop succeeds on any list. -/
theorem copyEssentialLibraries_ok (jp : String) (env : Env)
    (hex : ∀ p, ∃ b, env.fsExists p = Except.ok b)
    (hmk : ∀ p, env.mkdirTree p = Except.ok ()) :
    ∀ l : List String, copyEssentialLibraries jp env l = Except.ok () := by
  intro l
  induction l with
  | nil => rfl
  | cons lib rest ih =>
    simp [copyEssentialLibraries, copyLibrary_ok jp env hex hmk lib, ih]

/-- The device-node loop succeeds whenever the existence checks do not
throw (the `mknod` results are discarded by the source). -/
theorem createDeviceNodes_ok (jp : String) (env : Env)
    (hex : ∀ p, ∃ b, env.fsExists p = Except.ok b) :
    createDeviceNodes jp env = Except.ok () := by
  unfold createDeviceNodes
  have hfold : ∀ l : List String,
      l.foldr (fun p acc =>
        (match env.fsExists p with
          | Except.error e => Except.error e
          | Except.ok _ => acc)) (Except.ok ()) = Except.ok () := by
    intro l
    induction l with
    | nil => rfl
    | cons p rest ih =>
      obtain ⟨b, hb⟩ := hex p
      simp [hb, ih]
  exact hfold (deviceNodePaths jp)

/-- `generateSshConfig` succeeds under the same oracle assumptions: its
only fallible steps are the `etc/ssh` existence check and creation
(`FileUtils::write`'s result is discarded). -/
theorem generateSshConfig_ok (jp : String) (env : Env)
    (hex : ∀ p, ∃ b, env.fsExists p = Except.ok b)
    (hmk : ∀ p, env.mkdirTree p = Except.ok ()) :
    generateSshConfig jp env = Except.ok () := by
  obtain ⟨b, hb⟩ := hex (sshDirPath jp)
  cases b <;> simp [generateSshConfig, hb, hmk]

/-- Counterexample to claim C9: under an oracle where `/bin/bash` — a
mandatory tool if anything is — is missing (its read throws) and
everything else succeeds, `create()` still returns success, merely logging
the WARN for bash: no missing tool, mandatory or not, aborts `create()`,
because `copyBinary` catches the read failure for every binary alike. -/
theorem c9_counterexample :
    (create jailPathDev envNoBash).ok = true ∧
    "Cannot copy binary: /bin/bash - Cannot open file: /bin/bash" ∈
      (create jailPathDev envNoBash).warnings := by
  constructor
  · rfl
  · decide

/-- Claim C9 as amended: every asset copy in `create()` is best-effort —
whenever the skeleton's existence checks and directory creations succeed,
`create()` returns success regardless of which binaries or libraries are
missing; a binary whose read fails contributes exactly its
"Cannot copy binary" warning (mandatory tools included), and missing
libraries are skipped silently, contributing nothing. -/
theorem c9_amended (jp : String) (env : Env)
    (hex : ∀ p, ∃ b, env.fsExists p = Except.ok b)
    (hmk : ∀ p, env.mkdirTree p = Except.ok ()) :
    (create jp env).ok = true ∧
    (create jp env).warnings = essentialBins.filterMap (binaryWarning env) := by
  have h1 := mkDirs_ok env hex hmk (jailDirs jp)
  have h2 := copyBinaries_ok jp env hex hmk essentialBins
  have h3 := copyEssentialLibraries_ok jp env hex hmk essentialLibs
  have h4 := createDeviceNodes_ok jp env hex
  have h5 := generateSshConfig_ok jp env hex hmk
  constructor <;>
    simp [create, createDirectoryStructure, copyBaseSystem, h1, h2, h3, h4, h5]

/-- Witness for the amended C9: the all-succeeding oracle in which only
`/bin/bash` is missing. -/
theorem c9_witness :
    (create jailPathDev envNoBash).ok = true ∧
    (create jailPathDev envNoBash).warnings =
      essentialBins.filterMap (binaryWarning envNoBash) :=
  c9_amended jailPathDev envNoBash (fun _ => ⟨true, rfl⟩) (fun _ => rfl)

end AGI
